import Mathlib

/-!
Shallow embedding of the vault / time-locked reward accounting core of the
save-to-grow repository.

Sources embedded here:
- `components/DepositSection.tsx` (src/unnamed/part_002): client-side guards for
  `deposit`, `withdraw` and `handleLock`, the `availableToWithdraw` computation,
  the `retryRPC` resilience wrapper, and the NFT tier selection
  (`gifData`, `updateNftMetadata`).
- `app/api/lock/route.ts` (src/app/app/api/lock/route.ts): the lock API route
  (`action: create` with apy = 0.10, `action: unlock` with the `force` flag).

JavaScript numbers (SOL amounts, timestamps) are embedded as rationals `ℚ`;
on-chain lamport balances as `Nat`/`Int`.  Fallible request handlers become
`Except Err _`: a thrown error aborts the handler before any write, so an
`.error` result carries no successor state.  The on-chain Anchor vault program
(`programs/save_to_grow/src/lib.rs`) is not under src/; its balance arithmetic
is modelled from the spec (§4.2) where noted.
-/

namespace SaveToGrow

inductive LockStatus where
  | active
  | claimed
deriving DecidableEq

/-- A row of the `box_locks` registry table (interface `LockRecord` plus the
`user_id` column used by the route's queries).  Timestamps (`ends_at`) are
milliseconds since epoch, amounts are SOL. -/
structure Lock where
  id : Nat
  user_id : Nat
  amount : ℚ
  duration_hours : ℚ
  reward_amount : ℚ
  ends_at : ℚ
  status : LockStatus
deriving DecidableEq

/-- Machine-readable kinds for the errors thrown by the client guards, the
lock route, and the (spec-modelled) on-chain program. -/
inductive Err where
  | invalidAmount
  | insufficientAvailableBalance
  | insufficientFunds
  | notFound
  | alreadySettled
  | stillLocked
  | treasuryInsufficient
deriving DecidableEq

/-- Combined system state: per-owner on-chain vault balances (lamports), the
off-ledger `box_locks` rows, a fresh-id counter for inserts, and the admin
(treasury) wallet balance in lamports. -/
structure SysState where
  balances : Nat → Nat
  locks : List Lock
  nextId : Nat
  treasury : Int

def LAMPORTS_PER_SOL : ℚ := 1000000000

/-- `Math.floor(val * LAMPORTS_PER_SOL)` for the non-negative amounts the
guarded code paths pass in. -/
def lamportsOfSol (val : ℚ) : Nat :=
  (Int.floor (val * LAMPORTS_PER_SOL)).toNat

/-- Predicate for the `box_locks` query filter `user_id = owner AND
status = 'active'` used by `fetchLocks`. -/
def isActiveOf (owner : Nat) (l : Lock) : Bool :=
  decide (l.user_id = owner) && decide (l.status = LockStatus.active)

/-- `activeLocks.reduce((sum, lock) => sum + lock.amount, 0)` over a lock list. -/
def listLockedAmount (locks : List Lock) (owner : Nat) : ℚ :=
  ((locks.filter (isActiveOf owner)).map Lock.amount).sum

/-- `totalLockedAmount` from DepositSection.tsx: sum of the owner's active
lock amounts. -/
def totalLockedAmount (s : SysState) (owner : Nat) : ℚ :=
  listLockedAmount s.locks owner

/-- `solVaultBalance = Number(balance) / LAMPORTS_PER_SOL`. -/
def solVaultBalance (s : SysState) (owner : Nat) : ℚ :=
  (s.balances owner : ℚ) / LAMPORTS_PER_SOL

/-- `availableToWithdraw = solVaultBalance - totalLockedAmount`. -/
def availableToWithdraw (s : SysState) (owner : Nat) : ℚ :=
  solVaultBalance s owner - totalLockedAmount s owner

/-- `deposit` from DepositSection.tsx: rejects `val <= 0`, then deposits
`Math.floor(val * LAMPORTS_PER_SOL)` lamports into the owner's vault.
The balance increase itself is performed by the Anchor program's `deposit`
instruction, modelled from the spec (§4.2: transfers the amount into
`VaultAccount.balance`). -/
def deposit (s : SysState) (owner : Nat) (val : ℚ) : Except Err SysState :=
  if val ≤ 0 then .error .invalidAmount
  else .ok { s with balances :=
    fun o => if o = owner then s.balances o + lamportsOfSol val else s.balances o }

/-- `withdraw` from DepositSection.tsx: rejects `val <= 0`, rejects
`val > availableToWithdraw` (the lock-availability guard), then withdraws
`Math.floor(val * LAMPORTS_PER_SOL)` lamports.  The on-chain withdraw
(`amount ≤ balance`, else `InsufficientFunds`) is modelled from the spec
(§4.2). -/
def withdraw (s : SysState) (owner : Nat) (val : ℚ) : Except Err SysState :=
  if val ≤ 0 then .error .invalidAmount
  else if availableToWithdraw s owner < val then .error .insufficientAvailableBalance
  else if s.balances owner < lamportsOfSol val then .error .insufficientFunds
  else .ok { s with balances :=
    fun o => if o = owner then s.balances o - lamportsOfSol val else s.balances o }

/-- `const apy = 0.10` from app/api/lock/route.ts (action `create`). -/
def apy : ℚ := 10 / 100

def HOURS_PER_YEAR : ℚ := 8760

/-- `reward = amount * apy * (durationHours / 8760)`. -/
def computeReward (amount durationHours : ℚ) : ℚ :=
  amount * apy * (durationHours / HOURS_PER_YEAR)

/-- `handleLock` (client guards: amount positive and within
`availableToWithdraw`) composed with the route's `action: 'create'` branch,
which inserts the `box_locks` row with
`ends_at = now + durationHours * 60 * 60 * 1000` and the computed reward.
The route performs no validation of its own; in particular `durationHours`
is not checked. -/
def createLock (s : SysState) (owner : Nat) (val durationHours now : ℚ) :
    Except Err SysState :=
  if val ≤ 0 then .error .invalidAmount
  else if availableToWithdraw s owner < val then .error .insufficientAvailableBalance
  else .ok { s with
    locks := s.locks ++ [{
      id := s.nextId
      user_id := owner
      amount := val
      duration_hours := durationHours
      reward_amount := computeReward val durationHours
      ends_at := now + durationHours * 60 * 60 * 1000
      status := LockStatus.active }]
    nextId := s.nextId + 1 }

/-- Result of a successful `unlock`: the reward reported to the caller
(`{ success: true, reward: finalRewardAmount }`) and the lamports actually
moved by the treasury transfer. -/
structure SettleResult where
  rewardPaid : ℚ
  lamportsTransferred : Int
deriving DecidableEq

/-- The route's lock lookup: `.eq('id', lockId).eq('user_id', userId).single()`. -/
def findLock (s : SysState) (lockId userId : Nat) : Option Lock :=
  s.locks.find? (fun l => decide (l.id = lockId) && decide (l.user_id = userId))

/-- The route's status update: `update({ status: 'claimed' }).eq('id', lockId)`. -/
def markClaimed (locks : List Lock) (lockId : Nat) : List Lock :=
  locks.map (fun l => if l.id = lockId then { l with status := LockStatus.claimed } else l)

/-- `action: 'unlock'` from app/api/lock/route.ts: lookup, status check, time
check with the `force` flag, reward zeroing on forced early exit, treasury
balance check, `Math.floor(finalRewardAmount * LAMPORTS_PER_SOL)` transfer,
then the status flip to `claimed`. -/
def settle (s : SysState) (userId lockId : Nat) (force : Bool) (now : ℚ) :
    Except Err (SysState × SettleResult) :=
  match findLock s lockId userId with
  | none => .error .notFound
  | some lockData =>
    if lockData.status ≠ LockStatus.active then .error .alreadySettled
    else
      let isTimeOver : Bool := decide (lockData.ends_at ≤ now)
      if !isTimeOver && !force then .error .stillLocked
      else
        let finalRewardAmount : ℚ :=
          if !isTimeOver && force then 0 else lockData.reward_amount
        if 0 < finalRewardAmount then
          let rewardLamports : Int := Int.floor (finalRewardAmount * LAMPORTS_PER_SOL)
          if s.treasury < rewardLamports then .error .treasuryInsufficient
          else .ok ({ s with
              treasury := s.treasury - rewardLamports
              locks := markClaimed s.locks lockId },
            { rewardPaid := finalRewardAmount, lamportsTransferred := rewardLamports })
        else .ok ({ s with locks := markClaimed s.locks lockId },
          { rewardPaid := finalRewardAmount, lamportsTransferred := 0 })

/-- The four state-changing operations of the accounting core. -/
inductive Op where
  | deposit (owner : Nat) (val : ℚ)
  | withdraw (owner : Nat) (val : ℚ)
  | createLock (owner : Nat) (val durationHours now : ℚ)
  | settle (userId lockId : Nat) (force : Bool) (now : ℚ)

def applyOp (s : SysState) : Op → Except Err SysState
  | .deposit owner val => deposit s owner val
  | .withdraw owner val => withdraw s owner val
  | .createLock owner val d now => createLock s owner val d now
  | .settle userId lockId force now => (settle s userId lockId force now).map Prod.fst

/-- The financial invariant of §3: every owner's active-lock sum is covered by
the vault balance; additionally every persisted lock has positive principal
(all locks are created through the `val > 0` guard). -/
def Inv (s : SysState) : Prop :=
  (∀ owner, totalLockedAmount s owner ≤ solVaultBalance s owner) ∧
  (∀ l ∈ s.locks, 0 < l.amount)

/-- NFT tier labels as displayed by `gifData`. -/
def gifLabel (solVaultBalance : ℚ) : String :=
  if solVaultBalance ≥ 5 then "Legendary"
  else if solVaultBalance > 0 then "Growing"
  else "Sprout"

def uriDefault : String := "ipfs-default"
def uriGrowing : String := "ipfs-growing"
def uriLegendary : String := "ipfs-legendary"

/-- URI selection inside `updateNftMetadata`:
`let targetUri = METADATA_URIS.default; if (currentBal >= 5) legendary;
else if (currentBal > 0) growing`. -/
def targetUri (currentBal : ℚ) : String :=
  if currentBal ≥ 5 then uriLegendary
  else if currentBal > 0 then uriGrowing
  else uriDefault

/-- Outcome of one RPC attempt; `is429` records whether
`JSON.stringify(error).includes("429")`. -/
inductive RpcOutcome (α : Type) where
  | ok (v : α)
  | err (is429 : Bool)
deriving DecidableEq

/-- `retryRPC(fn, retries, delay)` from DepositSection.tsx, with the attempt
sequence made explicit (`attempts k` is the outcome of the k-th call of `fn`)
and the slept delays accumulated in the returned list. -/
def retryRPC {α : Type} (attempts : Nat → RpcOutcome α) :
    Nat → Nat → Nat → RpcOutcome α × List Nat
  | k, retries, delay =>
    match attempts k with
    | .ok v => (.ok v, [])
    | .err is429 =>
      match retries with
      | 0 => (.err is429, [])
      | r + 1 =>
        if is429 then
          let rest := retryRPC attempts (k + 1) r (delay * 2)
          (rest.1, delay :: rest.2)
        else (.err is429, [])

/-- The wrapper as called throughout the component: `retryRPC(fn)` with the
default arguments `retries = 3, delay = 1000`. -/
def retryRPCDefault {α : Type} (attempts : Nat → RpcOutcome α) :
    RpcOutcome α × List Nat :=
  retryRPC attempts 0 3 1000

end SaveToGrow

namespace SaveToGrow

/-! ### List-level lemmas about the locked-amount sum -/

theorem listLockedAmount_nil (owner : Nat) : listLockedAmount [] owner = 0 := rfl

theorem listLockedAmount_cons (l : Lock) (ls : List Lock) (owner : Nat) :
    listLockedAmount (l :: ls) owner =
      (if isActiveOf owner l then l.amount else 0) + listLockedAmount ls owner := by
  simp only [listLockedAmount, List.filter_cons]
  split <;> simp

theorem listLockedAmount_append (xs ys : List Lock) (owner : Nat) :
    listLockedAmount (xs ++ ys) owner =
      listLockedAmount xs owner + listLockedAmount ys owner := by
  simp [listLockedAmount, List.filter_append]

theorem listLockedAmount_nonneg {ls : List Lock} (h : ∀ l ∈ ls, 0 ≤ l.amount)
    (owner : Nat) : 0 ≤ listLockedAmount ls owner := by
  induction ls with
  | nil => simp [listLockedAmount_nil]
  | cons l ls ih =>
    rw [listLockedAmount_cons]
    have h0 : 0 ≤ l.amount := h l (by simp)
    have hrest : 0 ≤ listLockedAmount ls owner := ih fun x hx => h x (by simp [hx])
    have : (0:ℚ) ≤ (if isActiveOf owner l then l.amount else 0) := by
      split <;> simp [h0]
    linarith

theorem isActiveOf_markClaimed_self (l : Lock) (owner : Nat) :
    isActiveOf owner { l with status := LockStatus.claimed } = false := by
  simp [isActiveOf]

theorem listLockedAmount_markClaimed_le {ls : List Lock}
    (h : ∀ l ∈ ls, 0 ≤ l.amount) (lockId owner : Nat) :
    listLockedAmount (markClaimed ls lockId) owner ≤ listLockedAmount ls owner := by
  induction ls with
  | nil => simp [markClaimed, listLockedAmount_nil]
  | cons l ls ih =>
    have h0 : 0 ≤ l.amount := h l (by simp)
    have hrest := ih fun x hx => h x (by simp [hx])
    have hhead :
        (if isActiveOf owner
            (if l.id = lockId then { l with status := LockStatus.claimed } else l) then
          (if l.id = lockId then { l with status := LockStatus.claimed } else l).amount
         else 0) ≤ (if isActiveOf owner l then l.amount else 0) := by
      by_cases hid : l.id = lockId
      · rw [if_pos hid, isActiveOf_markClaimed_self]
        simp only [Bool.false_eq_true, if_false]
        split <;> simp [h0]
      · rw [if_neg hid]
    rw [show markClaimed (l :: ls) lockId =
          (if l.id = lockId then { l with status := LockStatus.claimed } else l) ::
            markClaimed ls lockId from rfl,
        listLockedAmount_cons, listLockedAmount_cons]
    exact add_le_add hhead hrest

theorem markClaimed_amount_mem {ls : List Lock} {l' : Lock} {lockId : Nat}
    (hmem : l' ∈ markClaimed ls lockId) : ∃ l ∈ ls, l'.amount = l.amount := by
  simp only [markClaimed, List.mem_map] at hmem
  obtain ⟨l, hl, rfl⟩ := hmem
  refine ⟨l, hl, ?_⟩
  split <;> rfl

theorem markClaimed_status {ls : List Lock} {l' : Lock} {lockId : Nat}
    (hmem : l' ∈ markClaimed ls lockId) (hid : l'.id = lockId) :
    l'.status = LockStatus.claimed := by
  simp only [markClaimed, List.mem_map] at hmem
  obtain ⟨l, _, rfl⟩ := hmem
  by_cases h : l.id = lockId
  · simp [h]
  · simp only [if_neg h] at hid ⊢
    exact absurd hid h

end SaveToGrow

namespace SaveToGrow

/-! ### Reduction lemmas for the `unlock` handler -/

theorem settle_of_find_none {s : SysState} {userId lockId : Nat} {force : Bool} {now : ℚ}
    (h : findLock s lockId userId = none) :
    settle s userId lockId force now = .error .notFound := by
  simp [settle, h]

theorem settle_of_claimed {s : SysState} {userId lockId : Nat} {force : Bool} {now : ℚ}
    {l : Lock} (h : findLock s lockId userId = some l)
    (hst : l.status ≠ LockStatus.active) :
    settle s userId lockId force now = .error .alreadySettled := by
  simp [settle, h, hst]

theorem settle_still_locked_aux {s : SysState} {userId lockId : Nat} {now : ℚ} {l : Lock}
    (h : findLock s lockId userId = some l) (hactive : l.status = LockStatus.active)
    (hearly : now < l.ends_at) :
    settle s userId lockId false now = .error .stillLocked := by
  have hd : decide (l.ends_at ≤ now) = false := decide_eq_false (not_le.2 hearly)
  simp [settle, h, hactive, hd]

theorem settle_force_early {s : SysState} {userId lockId : Nat} {now : ℚ} {l : Lock}
    (h : findLock s lockId userId = some l) (hactive : l.status = LockStatus.active)
    (hearly : now < l.ends_at) :
    settle s userId lockId true now =
      .ok ({ s with locks := markClaimed s.locks lockId },
           { rewardPaid := 0, lamportsTransferred := 0 }) := by
  have hd : decide (l.ends_at ≤ now) = false := decide_eq_false (not_le.2 hearly)
  simp [settle, h, hactive, hd]

theorem settle_mature_pos {s : SysState} {userId lockId : Nat} {force : Bool} {now : ℚ}
    {l : Lock} (h : findLock s lockId userId = some l)
    (hactive : l.status = LockStatus.active) (hmature : l.ends_at ≤ now)
    (hpos : 0 < l.reward_amount)
    (htre : Int.floor (l.reward_amount * LAMPORTS_PER_SOL) ≤ s.treasury) :
    settle s userId lockId force now =
      .ok ({ s with
              treasury := s.treasury - Int.floor (l.reward_amount * LAMPORTS_PER_SOL)
              locks := markClaimed s.locks lockId },
           { rewardPaid := l.reward_amount,
             lamportsTransferred := Int.floor (l.reward_amount * LAMPORTS_PER_SOL) }) := by
  have hd : decide (l.ends_at ≤ now) = true := decide_eq_true hmature
  simp [settle, h, hactive, hd, hpos, not_lt.2 htre]

theorem settle_mature_nonpos {s : SysState} {userId lockId : Nat} {force : Bool} {now : ℚ}
    {l : Lock} (h : findLock s lockId userId = some l)
    (hactive : l.status = LockStatus.active) (hmature : l.ends_at ≤ now)
    (hnpos : l.reward_amount ≤ 0) :
    settle s userId lockId force now =
      .ok ({ s with locks := markClaimed s.locks lockId },
           { rewardPaid := l.reward_amount, lamportsTransferred := 0 }) := by
  have hd : decide (l.ends_at ≤ now) = true := decide_eq_true hmature
  simp [settle, h, hactive, hd, not_lt.2 hnpos]

theorem settle_mature_insufficient {s : SysState} {userId lockId : Nat} {force : Bool}
    {now : ℚ} {l : Lock} (h : findLock s lockId userId = some l)
    (hactive : l.status = LockStatus.active) (hmature : l.ends_at ≤ now)
    (hpos : 0 < l.reward_amount)
    (hins : s.treasury < Int.floor (l.reward_amount * LAMPORTS_PER_SOL)) :
    settle s userId lockId force now = .error .treasuryInsufficient := by
  have hd : decide (l.ends_at ≤ now) = true := decide_eq_true hmature
  simp [settle, h, hactive, hd, hpos, hins]

end SaveToGrow

namespace SaveToGrow

/-! ### Concrete fixtures used by witnesses and counterexamples -/

/-- An active lock of owner 0: 1 SOL principal, 1 hour, maturing at t = 3600000 ms,
with a stored reward of 1 SOL. -/
def lockA : Lock :=
  { id := 1, user_id := 0, amount := 1, duration_hours := 1,
    reward_amount := 1, ends_at := 3600000, status := LockStatus.active }

/-- An already-claimed lock of owner 0. -/
def lockB : Lock :=
  { id := 2, user_id := 0, amount := 1, duration_hours := 1,
    reward_amount := 1, ends_at := 3600000, status := LockStatus.claimed }

/-- Owner 0 holds 2 SOL in the vault; the treasury is empty. -/
def stateA : SysState :=
  { balances := fun _ => 2000000000, locks := [lockA, lockB], nextId := 3, treasury := 0 }

/-- Same registry as `stateA` but with a funded treasury (2 SOL in lamports). -/
def stateB : SysState :=
  { balances := fun _ => 2000000000, locks := [lockA, lockB], nextId := 3,
    treasury := 2000000000 }

/-! ### Claim C7 -/

/-- Claim C7: a settle call on an active lock strictly before its maturity and
without the force flag fails with `StillLocked`; the handler throws before any
write, so the lock keeps status `active` and no transfer occurs. -/
theorem C7_still_locked (s : SysState) (userId lockId : Nat) (now : ℚ) (l : Lock)
    (hfind : findLock s lockId userId = some l)
    (hactive : l.status = LockStatus.active) (hearly : now < l.ends_at) :
    settle s userId lockId false now = .error .stillLocked :=
  settle_still_locked_aux hfind hactive hearly

theorem C7_still_locked_witness :
    settle stateA 0 1 false 100 = .error .stillLocked :=
  C7_still_locked stateA 0 1 100 lockA rfl rfl (by norm_num [lockA])

/-! ### Claim C6 -/

/-- Claim C6: a settle call on a lock id that does not exist for the caller
(absent, or owned by someone else) fails with `NotFound`; a settle call on a
lock whose status is no longer `active` fails with `AlreadySettled`.  Both
errors are thrown before the transfer and before the status update, so no
state changes. -/
theorem C6_notfound_already_settled (s : SysState) (userId lockId : Nat)
    (force : Bool) (now : ℚ) :
    (findLock s lockId userId = none →
      settle s userId lockId force now = .error .notFound) ∧
    (∀ l, findLock s lockId userId = some l → l.status ≠ LockStatus.active →
      settle s userId lockId force now = .error .alreadySettled) :=
  ⟨fun h => settle_of_find_none h, fun _ h hst => settle_of_claimed h hst⟩

theorem C6_notfound_already_settled_witness :
    settle stateA 0 5 false 7200000 = .error .notFound ∧
    settle stateA 7 1 false 7200000 = .error .notFound ∧
    settle stateA 0 2 false 7200000 = .error .alreadySettled :=
  ⟨(C6_notfound_already_settled stateA 0 5 false 7200000).1 rfl,
   (C6_notfound_already_settled stateA 7 1 false 7200000).1 rfl,
   (C6_notfound_already_settled stateA 0 2 false 7200000).2 lockB rfl
     (by simp [lockB])⟩

/-! ### Claim C5 -/

/-- Claim C5: when the payable reward is positive (the lock is mature and its
stored reward is positive) and the treasury balance is below the payable
reward — compared, as the route does, in lamports against
`Math.floor(reward * LAMPORTS_PER_SOL)` — the settle call fails with
`TreasuryInsufficient`; the throw happens before the transfer and before the
status update, so no transfer is attempted and the lock stays `active`. -/
theorem C5_treasury_insufficient (s : SysState) (userId lockId : Nat)
    (force : Bool) (now : ℚ) (l : Lock)
    (hfind : findLock s lockId userId = some l)
    (hactive : l.status = LockStatus.active) (hmature : l.ends_at ≤ now)
    (hpos : 0 < l.reward_amount)
    (hins : s.treasury < Int.floor (l.reward_amount * LAMPORTS_PER_SOL)) :
    settle s userId lockId force now = .error .treasuryInsufficient :=
  settle_mature_insufficient hfind hactive hmature hpos hins

theorem C5_treasury_insufficient_witness :
    settle stateA 0 1 false 7200000 = .error .treasuryInsufficient :=
  C5_treasury_insufficient stateA 0 1 false 7200000 lockA rfl rfl
    (by norm_num [lockA]) (by norm_num [lockA])
    (by norm_num [stateA, lockA, LAMPORTS_PER_SOL])

end SaveToGrow

namespace SaveToGrow

/-! ### Claim C4 -/

/-- Claim C4 counterexample: an active lock settled exactly at maturity, with a
positive stored reward and an empty treasury, does not succeed — it fails with
`TreasuryInsufficient` — contradicting the claim that a settle at or after
maturity always succeeds and returns `rewardPaid == lock.reward_amount`. -/
theorem C4_counterexample :
    settle stateA 0 1 false 3600000 = .error .treasuryInsufficient :=
  settle_mature_insufficient (l := lockA) rfl rfl (by norm_num [lockA])
    (by norm_num [lockA]) (by norm_num [stateA, lockA, LAMPORTS_PER_SOL])

/-- Claim C4 (amended): for a settle call on an active lock of the caller:
before maturity with the force flag it succeeds with `rewardPaid = 0`; at or
after maturity — with or without force — it succeeds with
`rewardPaid = lock.reward_amount` provided the treasury balance covers
`Math.floor(reward_amount * LAMPORTS_PER_SOL)` lamports; in every success case
the lock's status becomes `claimed`. -/
theorem C4_settle_outcomes (s : SysState) (userId lockId : Nat) (now : ℚ) (l : Lock)
    (hfind : findLock s lockId userId = some l)
    (hactive : l.status = LockStatus.active) :
    (now < l.ends_at →
      settle s userId lockId true now =
        .ok ({ s with locks := markClaimed s.locks lockId },
             { rewardPaid := 0, lamportsTransferred := 0 })) ∧
    (l.ends_at ≤ now → Int.floor (l.reward_amount * LAMPORTS_PER_SOL) ≤ s.treasury →
      ∀ force, ∃ s', (settle s userId lockId force now =
          .ok (s', { rewardPaid := l.reward_amount,
                     lamportsTransferred := if 0 < l.reward_amount then
                       Int.floor (l.reward_amount * LAMPORTS_PER_SOL) else 0 })) ∧
        s'.locks = markClaimed s.locks lockId) ∧
    (∀ l' ∈ markClaimed s.locks lockId, l'.id = lockId →
      l'.status = LockStatus.claimed) := by
  refine ⟨fun hearly => settle_force_early hfind hactive hearly, ?_, ?_⟩
  · intro hmature htre force
    by_cases hpos : 0 < l.reward_amount
    · refine ⟨{ s with
          treasury := s.treasury - Int.floor (l.reward_amount * LAMPORTS_PER_SOL)
          locks := markClaimed s.locks lockId }, ?_, rfl⟩
      rw [if_pos hpos]
      exact settle_mature_pos hfind hactive hmature hpos htre
    · refine ⟨{ s with locks := markClaimed s.locks lockId }, ?_, rfl⟩
      rw [if_neg hpos]
      exact settle_mature_nonpos hfind hactive hmature (not_lt.1 hpos)
  · intro l' hmem hid
    exact markClaimed_status hmem hid

theorem C4_settle_outcomes_witness :
    (settle stateB 0 1 true 100 =
      .ok ({ stateB with locks := markClaimed stateB.locks 1 },
           { rewardPaid := 0, lamportsTransferred := 0 })) ∧
    (∃ s', (settle stateB 0 1 false 7200000 =
        .ok (s', { rewardPaid := lockA.reward_amount,
                   lamportsTransferred := if 0 < lockA.reward_amount then
                     Int.floor (lockA.reward_amount * LAMPORTS_PER_SOL) else 0 })) ∧
      s'.locks = markClaimed stateB.locks 1) :=
  ⟨(C4_settle_outcomes stateB 0 1 100 lockA rfl rfl).1 (by norm_num [lockA]),
   (C4_settle_outcomes stateB 0 1 7200000 lockA rfl rfl).2.1 (by norm_num [lockA])
     (by norm_num [stateB, lockA, LAMPORTS_PER_SOL]) false⟩

/-! ### Claim C10 -/

/-- Claim C10: a successful reward-paying settle transfers exactly
`Math.floor(reward_amount * LAMPORTS_PER_SOL)` lamports out of the treasury
while reporting the unrounded `reward_amount` (in SOL) to the caller; whenever
`0 < reward_amount < 1/LAMPORTS_PER_SOL` the floor is 0, so a positive reward
is reported although zero lamports are transferred. -/
theorem C10_floor_lamports (s : SysState) (userId lockId : Nat) (force : Bool)
    (now : ℚ) (l : Lock) (hfind : findLock s lockId userId = some l)
    (hactive : l.status = LockStatus.active) (hmature : l.ends_at ≤ now)
    (hpos : 0 < l.reward_amount)
    (htre : Int.floor (l.reward_amount * LAMPORTS_PER_SOL) ≤ s.treasury) :
    (settle s userId lockId force now =
      .ok ({ s with
              treasury := s.treasury - Int.floor (l.reward_amount * LAMPORTS_PER_SOL)
              locks := markClaimed s.locks lockId },
           { rewardPaid := l.reward_amount,
             lamportsTransferred := Int.floor (l.reward_amount * LAMPORTS_PER_SOL) })) ∧
    (l.reward_amount < 1 / LAMPORTS_PER_SOL →
      Int.floor (l.reward_amount * LAMPORTS_PER_SOL) = 0) := by
  constructor
  · exact settle_mature_pos hfind hactive hmature hpos htre
  · intro hlt
    have hL : (0:ℚ) < LAMPORTS_PER_SOL := by norm_num [LAMPORTS_PER_SOL]
    rw [Int.floor_eq_zero_iff, Set.mem_Ico]
    constructor
    · positivity
    · calc l.reward_amount * LAMPORTS_PER_SOL
          < 1 / LAMPORTS_PER_SOL * LAMPORTS_PER_SOL := by
            exact mul_lt_mul_of_pos_right hlt hL
        _ = 1 := by field_simp

/-- A sub-lamport lock: the stored reward is half a lamport. -/
def lockTiny : Lock :=
  { id := 4, user_id := 0, amount := 1, duration_hours := 1,
    reward_amount := 1 / 2000000000, ends_at := 3600000, status := LockStatus.active }

def stateC : SysState :=
  { balances := fun _ => 2000000000, locks := [lockTiny], nextId := 5, treasury := 5 }

theorem C10_floor_lamports_witness :
    (settle stateC 0 4 false 7200000 =
      .ok ({ stateC with
              treasury := stateC.treasury -
                Int.floor (lockTiny.reward_amount * LAMPORTS_PER_SOL)
              locks := markClaimed stateC.locks 4 },
           { rewardPaid := lockTiny.reward_amount,
             lamportsTransferred :=
               Int.floor (lockTiny.reward_amount * LAMPORTS_PER_SOL) })) ∧
    (lockTiny.reward_amount < 1 / LAMPORTS_PER_SOL →
      Int.floor (lockTiny.reward_amount * LAMPORTS_PER_SOL) = 0) :=
  C10_floor_lamports stateC 0 4 false 7200000 lockTiny rfl rfl
    (by norm_num [lockTiny]) (by norm_num [lockTiny])
    (by
      have : Int.floor (lockTiny.reward_amount * LAMPORTS_PER_SOL) = 0 := by
        rw [Int.floor_eq_zero_iff, Set.mem_Ico]
        constructor <;> norm_num [lockTiny, LAMPORTS_PER_SOL]
      rw [this]; norm_num [stateC])

end SaveToGrow

namespace SaveToGrow

/-! ### Claim C8 -/

/-- Claim C8: the collectible-token tier is a pure function of the current
vault balance: balance 0 shows the Sprout tier (default metadata URI),
0 < balance < 5 the Growing tier, and balance ≥ 5 the Legendary tier; both
selection sites (`gifData` and `updateNftMetadata`) agree.  Determinism is
inherent: `gifLabel` and `targetUri` are functions of the balance alone. -/
theorem C8_tier_selection :
    (gifLabel 0 = "Sprout" ∧ targetUri 0 = uriDefault) ∧
    (∀ b : ℚ, 0 < b → b < 5 →
      gifLabel b = "Growing" ∧ targetUri b = uriGrowing) ∧
    (∀ b : ℚ, 5 ≤ b → gifLabel b = "Legendary" ∧ targetUri b = uriLegendary) := by
  refine ⟨⟨?_, ?_⟩, ?_, ?_⟩
  · norm_num [gifLabel]
  · norm_num [targetUri]
  · intro b hb0 hb5
    have h5 : ¬ b ≥ 5 := by linarith
    constructor
    · simp [gifLabel, h5, hb0]
    · simp [targetUri, h5, hb0]
  · intro b hb5
    constructor
    · simp [gifLabel, hb5]
    · simp [targetUri, hb5]

theorem C8_tier_selection_witness :
    (gifLabel 3 = "Growing" ∧ targetUri 3 = uriGrowing) ∧
    (gifLabel 7 = "Legendary" ∧ targetUri 7 = uriLegendary) :=
  ⟨C8_tier_selection.2.1 3 (by norm_num) (by norm_num),
   C8_tier_selection.2.2 7 (by norm_num)⟩

/-! ### Claim C9 -/

/-- Claim C9: the resilience wrapper, called with its default arguments,
retries a rate-limited (429) read up to 3 times, sleeping 1000 ms, 2000 ms and
4000 ms before the successive retries, and then propagates the rate-limit
failure; a non-rate-limit failure on the first attempt propagates immediately
with no sleep; a successful first attempt returns its value unchanged. -/
theorem C9_retry_rpc {α : Type} (attempts : Nat → RpcOutcome α) :
    ((∀ i, i ≤ 3 → attempts i = .err true) →
      retryRPCDefault attempts = (.err true, [1000, 2000, 4000])) ∧
    (attempts 0 = .err false → retryRPCDefault attempts = (.err false, [])) ∧
    (∀ v, attempts 0 = .ok v → retryRPCDefault attempts = (.ok v, [])) := by
  refine ⟨?_, ?_, ?_⟩
  · intro h
    simp [retryRPCDefault, retryRPC,
      h 0 (by norm_num), h 1 (by norm_num), h 2 (by norm_num), h 3 (by norm_num)]
  · intro h
    simp [retryRPCDefault, retryRPC, h]
  · intro v h
    simp [retryRPCDefault, retryRPC, h]

/-- Attempt streams for the witness: always rate-limited, one hard failure,
and an immediate success. -/
def attemptsRateLimited : Nat → RpcOutcome Nat := fun _ => .err true

def attemptsHardFailure : Nat → RpcOutcome Nat := fun _ => .err false

def attemptsImmediate : Nat → RpcOutcome Nat := fun _ => .ok 42

theorem C9_retry_rpc_witness :
    retryRPCDefault attemptsRateLimited = (.err true, [1000, 2000, 4000]) ∧
    retryRPCDefault attemptsHardFailure = (.err false, []) ∧
    retryRPCDefault attemptsImmediate = (.ok 42, []) :=
  ⟨(C9_retry_rpc attemptsRateLimited).1 (fun _ _ => rfl),
   (C9_retry_rpc attemptsHardFailure).2.1 rfl,
   (C9_retry_rpc attemptsImmediate).2.2 42 rfl⟩

end SaveToGrow

namespace SaveToGrow

/-- Whether a handler call succeeded (`.ok`). -/
def isOkE {α : Type} (e : Except Err α) : Bool :=
  match e with
  | .ok _ => true
  | .error _ => false

/-- A fresh owner-0 state: 2 SOL in the vault, no locks, empty treasury. -/
def stateD : SysState :=
  { balances := fun _ => 2000000000, locks := [], nextId := 0, treasury := 0 }

/-! ### Claim C2 -/

/-- Claim C2 counterexample: `createLock` with `durationHours = 0` (≤ 0) and a
valid amount does not fail with `InvalidDuration` — no duration validation
exists — and a lock row with `duration_hours = 0` is persisted with status
`active`. -/
theorem C2_counterexample :
    createLock stateD 0 1 0 0 =
      .ok { stateD with
        locks := [{ id := 0, user_id := 0, amount := 1, duration_hours := 0,
                    reward_amount := 0, ends_at := 0, status := LockStatus.active }]
        nextId := 1 } := by
  norm_num [createLock, availableToWithdraw, solVaultBalance, totalLockedAmount,
    listLockedAmount, stateD, LAMPORTS_PER_SOL, computeReward, apy, HOURS_PER_YEAR]

/-- Claim C2 (amended): `createLock` rejects when
`amount > availableBalance(owner)` (no lock row is persisted: the guard throws
before the insert), accepts at exactly `amount == availableBalance(owner)`,
and requires `amount > 0` (rejecting `amount ≤ 0` as an invalid amount); the
duration is NOT validated: the route has no `InvalidDuration` error, and any
`durationHours` — including ≤ 0 — is accepted once the amount checks pass. -/
theorem C2_create_lock_validation (s : SysState) (owner : Nat)
    (val durationHours now : ℚ) :
    (availableToWithdraw s owner < val →
      isOkE (createLock s owner val durationHours now) = false) ∧
    (0 < val → val = availableToWithdraw s owner →
      createLock s owner val durationHours now =
        .ok { s with
          locks := s.locks ++ [{
            id := s.nextId, user_id := owner, amount := val,
            duration_hours := durationHours,
            reward_amount := computeReward val durationHours,
            ends_at := now + durationHours * 60 * 60 * 1000,
            status := LockStatus.active }]
          nextId := s.nextId + 1 }) ∧
    (val ≤ 0 → createLock s owner val durationHours now = .error .invalidAmount) := by
  refine ⟨?_, ?_, ?_⟩
  · intro h
    unfold createLock
    by_cases h1 : val ≤ 0
    · rw [if_pos h1]; rfl
    · rw [if_neg h1, if_pos h]; rfl
  · intro hpos heq
    unfold createLock
    rw [if_neg (not_le.2 hpos), if_neg (by rw [heq]; exact lt_irrefl _)]
  · intro hnonpos
    unfold createLock
    rw [if_pos hnonpos]

theorem C2_create_lock_validation_witness :
    isOkE (createLock stateD 0 3 24 0) = false ∧
    (createLock stateD 0 2 24 0 =
      .ok { stateD with
        locks := stateD.locks ++ [{
          id := stateD.nextId, user_id := 0, amount := 2, duration_hours := 24,
          reward_amount := computeReward 2 24,
          ends_at := 0 + 24 * 60 * 60 * 1000,
          status := LockStatus.active }]
        nextId := stateD.nextId + 1 }) ∧
    createLock stateD 0 0 24 0 = .error .invalidAmount :=
  ⟨(C2_create_lock_validation stateD 0 3 24 0).1
      (by norm_num [availableToWithdraw, solVaultBalance, totalLockedAmount,
        listLockedAmount, stateD, LAMPORTS_PER_SOL]),
   (C2_create_lock_validation stateD 0 2 24 0).2.1 (by norm_num)
      (by norm_num [availableToWithdraw, solVaultBalance, totalLockedAmount,
        listLockedAmount, stateD, LAMPORTS_PER_SOL]),
   (C2_create_lock_validation stateD 0 0 24 0).2.2 (by norm_num)⟩

/-! ### Claim C3 -/

/-- Claim C3: the reward stored at creation is
`amount * apy * (durationHours / 8760)` with the fixed annual rate
`apy = 0.10`; for principal 1000, duration 24 h this is `20/73 ≈ 0.274`
(within 1/1000); and settlement pays out exactly the stored `reward_amount`
of the loaded lock — the reward is never recomputed. -/
theorem C3_reward_formula :
    (∀ (s : SysState) (owner : Nat) (val d now : ℚ) (s' : SysState),
      createLock s owner val d now = .ok s' →
      s'.locks = s.locks ++ [{
        id := s.nextId, user_id := owner, amount := val, duration_hours := d,
        reward_amount := val * apy * (d / HOURS_PER_YEAR),
        ends_at := now + d * 60 * 60 * 1000, status := LockStatus.active }]) ∧
    (computeReward 1000 24 = 20 / 73 ∧
      |computeReward 1000 24 - 274 / 1000| < 1 / 1000) ∧
    (∀ (s : SysState) (userId lockId : Nat) (now : ℚ) (st : SysState)
      (res : SettleResult), settle s userId lockId false now = .ok (st, res) →
      ∃ l, findLock s lockId userId = some l ∧ res.rewardPaid = l.reward_amount) := by
  refine ⟨?_, ⟨?_, ?_⟩, ?_⟩
  · intro s owner val d now s' h
    unfold createLock at h
    split_ifs at h
    rw [← Except.ok.inj h]
    rfl
  · norm_num [computeReward, apy, HOURS_PER_YEAR]
  · have h : computeReward 1000 24 = 20 / 73 := by
      norm_num [computeReward, apy, HOURS_PER_YEAR]
    rw [h, abs_lt]
    constructor <;> norm_num
  · intro s userId lockId now st res h
    cases hf : findLock s lockId userId with
    | none => rw [settle_of_find_none hf] at h; cases h
    | some l =>
      refine ⟨l, rfl, ?_⟩
      by_cases hact : l.status = LockStatus.active
      · by_cases hm : l.ends_at ≤ now
        · by_cases hp : 0 < l.reward_amount
          · by_cases hi : s.treasury < Int.floor (l.reward_amount * LAMPORTS_PER_SOL)
            · rw [settle_mature_insufficient hf hact hm hp hi] at h; cases h
            · rw [settle_mature_pos hf hact hm hp (not_lt.1 hi)] at h
              obtain ⟨-, hres⟩ := Prod.mk.inj (Except.ok.inj h)
              rw [← hres]
          · rw [settle_mature_nonpos hf hact hm (not_lt.1 hp)] at h
            obtain ⟨-, hres⟩ := Prod.mk.inj (Except.ok.inj h)
            rw [← hres]
        · rw [settle_still_locked_aux hf hact (not_le.1 hm)] at h; cases h
      · rw [settle_of_claimed hf hact] at h; cases h

theorem C3_reward_formula_witness :
    (({ stateD with
        locks := stateD.locks ++ [{
          id := stateD.nextId, user_id := 0, amount := 2, duration_hours := 24,
          reward_amount := computeReward 2 24,
          ends_at := 0 + 24 * 60 * 60 * 1000,
          status := LockStatus.active }]
        nextId := stateD.nextId + 1 } : SysState).locks =
      stateD.locks ++ [{
        id := stateD.nextId, user_id := 0, amount := 2, duration_hours := 24,
        reward_amount := 2 * apy * (24 / HOURS_PER_YEAR),
        ends_at := 0 + 24 * 60 * 60 * 1000, status := LockStatus.active }]) ∧
    (∃ l, findLock stateB 1 0 = some l ∧
      ({ rewardPaid := lockA.reward_amount,
         lamportsTransferred :=
           Int.floor (lockA.reward_amount * LAMPORTS_PER_SOL) } :
        SettleResult).rewardPaid = l.reward_amount) :=
  ⟨C3_reward_formula.1 stateD 0 2 24 0 _
      (by norm_num [createLock, availableToWithdraw, solVaultBalance,
        totalLockedAmount, listLockedAmount, stateD, LAMPORTS_PER_SOL]),
   C3_reward_formula.2.2 stateB 0 1 7200000 _ _
      (settle_mature_pos (l := lockA) rfl rfl (by norm_num [lockA])
        (by norm_num [lockA]) (by norm_num [stateB, lockA, LAMPORTS_PER_SOL]))⟩

end SaveToGrow

namespace SaveToGrow

/-! ### Invariant preservation (claim C1) -/

theorem lamportsOfSol_le {val : ℚ} (hpos : 0 < val) :
    (lamportsOfSol val : ℚ) ≤ val * LAMPORTS_PER_SOL := by
  have hL : (0:ℚ) < LAMPORTS_PER_SOL := by norm_num [LAMPORTS_PER_SOL]
  have hnn : (0:ℤ) ≤ Int.floor (val * LAMPORTS_PER_SOL) := by
    apply Int.floor_nonneg.2
    positivity
  unfold lamportsOfSol
  calc ((Int.floor (val * LAMPORTS_PER_SOL)).toNat : ℚ)
      = ((Int.floor (val * LAMPORTS_PER_SOL) : ℤ) : ℚ) := by
        exact_mod_cast Int.toNat_of_nonneg hnn
    _ ≤ val * LAMPORTS_PER_SOL := Int.floor_le _

theorem Inv_deposit {s : SysState} {owner : Nat} {val : ℚ} {s' : SysState}
    (hInv : Inv s) (h : deposit s owner val = .ok s') : Inv s' := by
  obtain ⟨h1, h2⟩ := hInv
  have hL : (0:ℚ) < LAMPORTS_PER_SOL := by norm_num [LAMPORTS_PER_SOL]
  unfold deposit at h
  split_ifs at h
  rw [← Except.ok.inj h]
  refine ⟨fun o => ?_, h2⟩
  dsimp only [totalLockedAmount, solVaultBalance]
  by_cases ho : o = owner
  · rw [if_pos ho]
    refine le_trans (h1 o) ?_
    dsimp only [solVaultBalance]
    have : (s.balances o : ℚ) ≤ ((s.balances o + lamportsOfSol val : ℕ) : ℚ) := by
      exact_mod_cast Nat.le_add_right _ _
    exact div_le_div_of_nonneg_right this hL.le
  · rw [if_neg ho]
    exact h1 o

theorem Inv_withdraw {s : SysState} {owner : Nat} {val : ℚ} {s' : SysState}
    (hInv : Inv s) (h : withdraw s owner val = .ok s') : Inv s' := by
  obtain ⟨h1, h2⟩ := hInv
  have hL : (0:ℚ) < LAMPORTS_PER_SOL := by norm_num [LAMPORTS_PER_SOL]
  unfold withdraw at h
  split_ifs at h with hv ha hb
  rw [← Except.ok.inj h]
  refine ⟨fun o => ?_, h2⟩
  dsimp only [totalLockedAmount, solVaultBalance]
  by_cases ho : o = owner
  · rw [if_pos ho]
    subst ho
    have hval : 0 < val := not_le.1 hv
    have hbal : lamportsOfSol val ≤ s.balances o := not_lt.1 hb
    have hcast : ((s.balances o - lamportsOfSol val : ℕ) : ℚ) =
        (s.balances o : ℚ) - (lamportsOfSol val : ℚ) :=
      Nat.cast_sub hbal
    have havail : val ≤ availableToWithdraw s o := not_lt.1 ha
    have hlam := lamportsOfSol_le hval
    rw [hcast]
    have step : (s.balances o : ℚ) / LAMPORTS_PER_SOL - val ≤
        ((s.balances o : ℚ) - (lamportsOfSol val : ℚ)) / LAMPORTS_PER_SOL := by
      rw [sub_div]
      exact sub_le_sub_left ((div_le_iff₀ hL).2 hlam) _
    have hlocked : listLockedAmount s.locks o ≤
        (s.balances o : ℚ) / LAMPORTS_PER_SOL - val := by
      have := havail
      unfold availableToWithdraw solVaultBalance totalLockedAmount at this
      linarith
    exact hlocked.trans step
  · rw [if_neg ho]
    exact h1 o

theorem Inv_createLock {s : SysState} {owner : Nat} {val durationHours now : ℚ}
    {s' : SysState} (hInv : Inv s)
    (h : createLock s owner val durationHours now = .ok s') : Inv s' := by
  obtain ⟨h1, h2⟩ := hInv
  unfold createLock at h
  split_ifs at h with hv ha
  rw [← Except.ok.inj h]
  have hval : 0 < val := not_le.1 hv
  have havail : val ≤ availableToWithdraw s owner := not_lt.1 ha
  constructor
  · intro o
    dsimp only [totalLockedAmount, solVaultBalance]
    rw [listLockedAmount_append, listLockedAmount_cons, listLockedAmount_nil]
    by_cases ho : o = owner
    · subst ho
      have hact : isActiveOf o
          ({ id := s.nextId, user_id := o, amount := val,
             duration_hours := durationHours,
             reward_amount := computeReward val durationHours,
             ends_at := now + durationHours * 60 * 60 * 1000,
             status := LockStatus.active } : Lock) = true := by
        simp [isActiveOf]
      rw [hact]
      simp only [if_true]
      have := havail
      unfold availableToWithdraw solVaultBalance totalLockedAmount at this
      have hl := h1 o
      unfold totalLockedAmount solVaultBalance at hl
      linarith
    · have hact : isActiveOf o
          ({ id := s.nextId, user_id := owner, amount := val,
             duration_hours := durationHours,
             reward_amount := computeReward val durationHours,
             ends_at := now + durationHours * 60 * 60 * 1000,
             status := LockStatus.active } : Lock) = false := by
        simp [isActiveOf]
        exact fun hc => absurd hc.symm ho
      rw [hact]
      simp only [Bool.false_eq_true, if_false, add_zero]
      have hl := h1 o
      unfold totalLockedAmount solVaultBalance at hl
      linarith
  · intro l hl
    rcases List.mem_append.1 hl with hmem | hmem
    · exact h2 l hmem
    · rcases List.mem_singleton.1 hmem with rfl
      exact hval

theorem settle_ok_shape {s : SysState} {userId lockId : Nat} {force : Bool}
    {now : ℚ} {st : SysState} {res : SettleResult}
    (h : settle s userId lockId force now = .ok (st, res)) :
    st.balances = s.balances ∧ st.locks = markClaimed s.locks lockId := by
  cases hf : findLock s lockId userId with
  | none => rw [settle_of_find_none hf] at h; cases h
  | some l =>
    by_cases hact : l.status = LockStatus.active
    · by_cases hm : l.ends_at ≤ now
      · by_cases hp : 0 < l.reward_amount
        · by_cases hi : s.treasury < Int.floor (l.reward_amount * LAMPORTS_PER_SOL)
          · rw [settle_mature_insufficient hf hact hm hp hi] at h; cases h
          · rw [settle_mature_pos hf hact hm hp (not_lt.1 hi)] at h
            obtain ⟨hst, -⟩ := Prod.mk.inj (Except.ok.inj h)
            rw [← hst]
            exact ⟨rfl, rfl⟩
        · rw [settle_mature_nonpos hf hact hm (not_lt.1 hp)] at h
          obtain ⟨hst, -⟩ := Prod.mk.inj (Except.ok.inj h)
          rw [← hst]
          exact ⟨rfl, rfl⟩
      · cases force with
        | false => rw [settle_still_locked_aux hf hact (not_le.1 hm)] at h; cases h
        | true =>
          rw [settle_force_early hf hact (not_le.1 hm)] at h
          obtain ⟨hst, -⟩ := Prod.mk.inj (Except.ok.inj h)
          rw [← hst]
          exact ⟨rfl, rfl⟩
    · rw [settle_of_claimed hf hact] at h; cases h

theorem Inv_settle {s : SysState} {userId lockId : Nat} {force : Bool} {now : ℚ}
    {st : SysState} {res : SettleResult} (hInv : Inv s)
    (h : settle s userId lockId force now = .ok (st, res)) : Inv st := by
  obtain ⟨h1, h2⟩ := hInv
  obtain ⟨hbal, hlocks⟩ := settle_ok_shape h
  have hnn : ∀ l ∈ s.locks, 0 ≤ l.amount := fun l hl => le_of_lt (h2 l hl)
  constructor
  · intro o
    unfold totalLockedAmount solVaultBalance
    rw [hbal, hlocks]
    have hle := listLockedAmount_markClaimed_le hnn lockId o
    have hb := h1 o
    unfold totalLockedAmount solVaultBalance at hb
    linarith
  · intro l hl
    rw [hlocks] at hl
    obtain ⟨l0, hl0, hamt⟩ := markClaimed_amount_mem hl
    rw [hamt]
    exact h2 l0 hl0

end SaveToGrow

namespace SaveToGrow

/-! ### Claim C1 -/

/-- Claim C1: every successful operation — deposit, withdraw, createLock or
settle — preserves the invariant that each owner's vault balance covers the
sum of that owner's active lock amounts (together with the positivity of all
persisted lock principals); and a withdraw of an amount exceeding
`availableToWithdraw` (balance minus the active-lock sum) is rejected, the
guard throwing before any write, so the state is unchanged. -/
theorem C1_invariant_preservation :
    (∀ (s : SysState) (op : Op) (s' : SysState),
      Inv s → applyOp s op = .ok s' → Inv s') ∧
    (∀ (s : SysState) (owner : Nat) (val : ℚ),
      availableToWithdraw s owner < val → isOkE (withdraw s owner val) = false) := by
  constructor
  · intro s op s' hInv h
    cases op with
    | deposit owner val => exact Inv_deposit hInv h
    | withdraw owner val => exact Inv_withdraw hInv h
    | createLock owner val d now => exact Inv_createLock hInv h
    | settle userId lockId force now =>
      simp only [applyOp] at h
      cases hs : settle s userId lockId force now with
      | error e => rw [hs] at h; cases h
      | ok p =>
        rw [hs] at h
        cases h
        exact Inv_settle hInv hs
  · intro s owner val h
    unfold withdraw
    by_cases h1 : val ≤ 0
    · rw [if_pos h1]; rfl
    · rw [if_neg h1, if_pos h]; rfl

theorem C1_invariant_preservation_witness :
    Inv ({ stateD with
      locks := stateD.locks ++ [{
        id := stateD.nextId, user_id := 0, amount := 2, duration_hours := 24,
        reward_amount := computeReward 2 24,
        ends_at := 0 + 24 * 60 * 60 * 1000,
        status := LockStatus.active }]
      nextId := stateD.nextId + 1 } : SysState) ∧
    isOkE (withdraw stateA 0 2) = false :=
  ⟨C1_invariant_preservation.1 stateD (Op.createLock 0 2 24 0) _
      (by
        constructor
        · intro o
          norm_num [totalLockedAmount, listLockedAmount, solVaultBalance,
            stateD, LAMPORTS_PER_SOL]
        · intro l hl
          simp [stateD] at hl)
      (by
        norm_num [applyOp, createLock, availableToWithdraw, solVaultBalance,
          totalLockedAmount, listLockedAmount, stateD, LAMPORTS_PER_SOL]),
   C1_invariant_preservation.2 stateA 0 2
      (by
        have hA : isActiveOf 0 lockA = true := rfl
        have hB : isActiveOf 0 lockB = false := rfl
        have hAm : lockA.amount = 1 := rfl
        norm_num [availableToWithdraw, solVaultBalance, totalLockedAmount,
          listLockedAmount, stateA, hA, hB, hAm, LAMPORTS_PER_SOL])⟩

end SaveToGrow
